import Mathlib

/-!
Verification development for the assignment-helper backend (src/main.py).

The embedding below translates the request pipeline of main.py:
  - the answer normalizer inlined in get_answer (strip, quote removal,
    triple-backtick fence stripping),
  - the ZIP archive scan (os.walk over extracted directories, reading CSV
    files with pandas and returning the first row of an "answer" column),
  - the model resolver (get_cached_model_name with its lru_cache, and
    get_model with the gemini_model global),
  - the POST /api/ orchestrator get_answer, including the bounded
    question_history list.

Modelling conventions: Python strings become List Char / String; machine
side effects (the external generation API, model construction, the clock)
become fields of an explicit Env record, deterministic for the life of a
process; Python exceptions become Except String results; the mutable
globals (lru_cache cell, gemini_model, question_history) become explicit
state records threaded through the functions.  CSV cells are taken
already in their str() rendering, since pandas cell formatting is outside
the scope of the claims.  Python str.strip() is modelled over the
whitespace test Char.isWhitespace.
-/

namespace Main

/-- Character code 34, the double-quote character removed by the normalizer. -/
def dq : Char := Char.ofNat 34

/-- Character code 39, the single-quote character removed by the normalizer. -/
def sq : Char := Char.ofNat 39

/-- Character code 96, the backtick character of the fence marker. -/
def bt : Char := Char.ofNat 96

/-- Python str.strip(): drop whitespace from the front, then from the back. -/
def stripChars (cs : List Char) : List Char :=
  List.rdropWhile Char.isWhitespace (List.dropWhile Char.isWhitespace cs)

/-- The two replace calls of main.py line 292: delete every double-quote and
single-quote character, anywhere in the string. -/
def removeQuoteChars (cs : List Char) : List Char :=
  cs.filter (fun c => !(c == dq || c == sq))

/-- The three-backtick fence marker. -/
def fenceMarker : List Char := [bt, bt, bt]

/-- Python startswith of the fence marker: the first three characters. -/
def startsFence (cs : List Char) : Bool := cs.take 3 == fenceMarker

/-- Python endswith of the fence marker: the last three characters. -/
def endsFence (cs : List Char) : Bool := cs.reverse.take 3 == fenceMarker

/-- Python slicing answer[3:-3] of main.py line 296: drop three characters
from each end, empty when fewer than seven characters remain. -/
def cutFence (cs : List Char) : List Char :=
  ((cs.drop 3).reverse.drop 3).reverse

/-- Answer clean-up of main.py lines 289-296 at the character-list level:
strip, remove quotes, and strip one fence marker from each end (re-stripping)
when the result both starts and ends with one. -/
def normalizeChars (cs : List Char) : List Char :=
  let a := removeQuoteChars (stripChars cs)
  if startsFence a && endsFence a then stripChars (cutFence a) else a

/-- Answer normalizer of main.py lines 289-296. -/
def normalize (s : String) : String := String.mk (normalizeChars s.data)

/-- Normalizer transcribed clause by clause from the specification text of
section 4.3: trim surrounding whitespace; remove all literal double-quote and
single-quote characters anywhere in the string; if the result both starts and
ends with a triple-backtick fence marker, strip exactly one marker from each
end and re-trim; no other transformation. -/
def normalizeSpec (s : String) : String :=
  let afterTrim := stripChars s.data
  let afterQuoteRemoval := removeQuoteChars afterTrim
  let afterFence :=
    if startsFence afterQuoteRemoval && endsFence afterQuoteRemoval then
      stripChars (cutFence afterQuoteRemoval)
    else afterQuoteRemoval
  String.mk afterFence

/-- Parsed CSV table as produced by pd.read_csv: header columns plus data
rows, every cell taken in its str() rendering. -/
structure CsvTable where
  columns : List String
  rows : List (List String)
deriving DecidableEq

/-- One file met by os.walk inside a directory of the extracted archive.
The csv field is the pd.read_csv outcome for the file, an error value
standing for a raised parse exception; it is consulted only for names
ending in .csv. -/
structure FileEntry where
  name : String
  csv : Except String CsvTable

/-- Message of the pandas IndexError raised by .iloc[0] on an empty frame. -/
def ilocMsg : String := "single positional indexer is out-of-bounds"

/-- Cell df[answer].iloc[0] of main.py line 254: the first data row's value
in the "answer" column, raising the iloc IndexError when no data row exists. -/
def firstAnswerCell (t : CsvTable) : Except String String :=
  match t.rows with
  | [] => Except.error ilocMsg
  | row :: _ => Except.ok ((row.get? (t.columns.indexOf ("answer"))).getD ("nan"))

/-- Python str.endswith at the character-list level (String.endsWith of the
library is not kernel-reducible, so the suffix test is spelled out on the
character lists). -/
def strEndsWith (s suf : String) : Bool := suf.data.isSuffixOf s.data

/-- Inner loop of main.py lines 248-257 over the files of one directory:
read each .csv file, and on the first one whose columns contain "answer",
set the answer and break out of this directory's loop.  The acc argument is
the current value of the answer variable. -/
def scanDirFiles : List FileEntry → Option String → Except String (Option String)
  | [], acc => Except.ok acc
  | f :: rest, acc =>
    if strEndsWith f.name (".csv") then
      match f.csv with
      | Except.error e => Except.error e
      | Except.ok t =>
        if t.columns.contains ("answer") then
          match firstAnswerCell t with
          | Except.error e => Except.error e
          | Except.ok v => Except.ok (some v)
        else scanDirFiles rest acc
    else scanDirFiles rest acc

/-- Outer os.walk loop of main.py line 247: the break of line 257 leaves only
the inner loop, so the walk continues into every further directory, threading
the answer variable through. -/
def scanWalk : List (List FileEntry) → Option String → Except String (Option String)
  | [], acc => Except.ok acc
  | d :: rest, acc =>
    match scanDirFiles d acc with
    | Except.error e => Except.error e
    | Except.ok a => scanWalk rest a

/-- Response object of the generation API: Python truthiness of the object
and its optional text attribute (absent when hasattr fails). -/
structure GenResponse where
  truthy : Bool
  text : Option String
deriving DecidableEq

/-- Deterministic process environment: the smoke-test probe issued by
get_cached_model_name for a candidate name, whether GenerativeModel
construction succeeds for a name, the generation call of the main endpoint
(model name and prompt to outcome), and the current time used for history
timestamps.  Error values stand for raised exceptions carrying str(e). -/
structure Env where
  probe : String → Except String GenResponse
  constructOk : String → Bool
  generate : String → String → Except String GenResponse
  now : Nat

/-- Hardcoded candidate model list of main.py lines 94-99. -/
def candidates : List String :=
  ["models/gemini-1.5-flash", "gemini-1.5-flash",
   "models/gemini-1.5-pro", "gemini-1.5-pro"]

/-- Acceptance test of main.py line 106 on a probe outcome: no exception,
a truthy response object, and a text attribute present.  The text payload
content is not inspected. -/
def acceptedProbe (r : Except String GenResponse) : Bool :=
  match r with
  | Except.ok resp => resp.truthy && resp.text.isSome
  | Except.error _ => false

/-- Candidate loop of main.py lines 101-113, also counting how many
candidates were probed (each iteration issues one generate_content call). -/
def resolveLoop (env : Env) : List String → Option String × Nat
  | [] => (none, 0)
  | n :: rest =>
    if acceptedProbe (env.probe n) then (some n, 1)
    else ((resolveLoop env rest).1, (resolveLoop env rest).2 + 1)

/-- State of the two module-level caches of main.py: the lru_cache cell of
get_cached_model_name (none = never computed, some r = cached result r) and
the gemini_model global, identified by its bound model name. -/
structure ModelState where
  cachedName : Option (Option String)
  geminiModel : Option String
deriving DecidableEq

/-- Function get_cached_model_name of main.py lines 91-113 together with its
lru_cache behavior: the candidate loop runs only when no result is cached.
Returns the result, the new cache state, and the number of probes issued. -/
def get_cached_model_name (env : Env) (st : ModelState) :
    Option String × ModelState × Nat :=
  match st.cachedName with
  | some r => (r, st, 0)
  | none =>
    let (r, k) := resolveLoop env candidates
    (r, { st with cachedName := some r }, k)

/-- Function get_model of main.py lines 116-134: return the gemini_model
global when set; otherwise consult get_cached_model_name and construct the
model, leaving the global unset when construction raises or no name works. -/
def get_model (env : Env) (st : ModelState) : Option String × ModelState × Nat :=
  match st.geminiModel with
  | some m => (some m, st, 0)
  | none =>
    match get_cached_model_name env st with
    | (none, st1, k) => (none, st1, k)
    | (some name, st1, k) =>
      if env.constructOk name then
        (some name, { st1 with geminiModel := some name }, k)
      else (none, st1, k)

/-- One entry of the question_history list of main.py. -/
structure Record where
  question : String
  answer : String
  timestamp : Nat
  had_file : Bool
deriving DecidableEq

/-- Append-then-evict of main.py lines 261-270 and 302-311: append the new
record, then pop index 0 when the length exceeds 100. -/
def appendEvict (h : List Record) (r : Record) : List Record :=
  if (h ++ [r]).length > 100 then (h ++ [r]).drop 1 else h ++ [r]

/-- Process state seen by the POST /api/ handler: the model caches and the
question_history list. -/
structure AppState where
  model : ModelState
  history : List Record
deriving DecidableEq

/-- Uploaded file of a request: its filename and, when the name ends in
.zip, the outcome of opening and extracting it — an error value stands for
the zipfile.BadZipFile exception, a success for the extracted directory
tree in os.walk order. -/
structure UploadedFile where
  filename : String
  zip : Except String (List (List FileEntry))

/-- POST /api/ request: the form question and the optional upload. -/
structure Request where
  question : String
  file : Option UploadedFile

/-- HTTP outcome of the handler: a 200 answer body or an error body with
its status code. -/
inductive ApiResponse where
  | answer (body : String)
  | err (msg : String) (status : Nat)
deriving DecidableEq

/-- Prompt template of main.py lines 280-285. -/
def buildPrompt (q : String) : String :=
  "You are helping with IIT Madras Online Degree in Data Science assignments.\n\nQuestion: " ++
    q ++
    "\n\nAnswer only with the exact answer that should be entered into the assignment form. Do not include explanations or anything else. Just the direct answer."

/-- Archive processing of main.py lines 228-257 for one request: nothing
happens without a file with a non-empty name ending in .zip; otherwise the
extraction outcome and the walk decide the answer variable, errors standing
for raised exceptions. -/
def scanOfRequest (req : Request) : Except String (Option String) :=
  match req.file with
  | none => Except.ok none
  | some f =>
    if f.filename != "" && strEndsWith f.filename (".zip") then
      match f.zip with
      | Except.error e => Except.error e
      | Except.ok dirs => scanWalk dirs none
    else Except.ok none

/-- Generation tail of main.py lines 276-316: build the prompt, call the
model, and either normalize and record the text answer or fail (an exception
from generate_content, or the ValueError of line 316 when the response has
no text attribute, both caught by the handler and turned into a 500 body).
The final Bool reports that the generation call was invoked. -/
def modelPath (env : Env) (st : AppState) (req : Request) (mname : String) :
    ApiResponse × AppState × Bool :=
  match env.generate mname (buildPrompt req.question) with
  | Except.error e => (ApiResponse.err e 500, st, true)
  | Except.ok resp =>
    match resp.text with
    | none => (ApiResponse.err ("Unexpected response format from Gemini API") 500, st, true)
    | some t =>
      let a := normalize t
      let rcd : Record := ⟨req.question, a, env.now, req.file.isSome⟩
      (ApiResponse.answer a, { st with history := appendEvict st.history rcd }, true)

/-- Handler get_answer of main.py lines 205-325 for POST /api/.  The model
is obtained first (an unresolvable model is an immediate 500); then the
upload is scanned, a scan exception becoming a 500 through the broad except
clause; a truthy (non-empty) scanned answer is recorded and returned without
generation; otherwise the generation tail runs.  The Bool of the result
reports whether generation was invoked. -/
def get_answer (env : Env) (st : AppState) (req : Request) :
    ApiResponse × AppState × Bool :=
  match get_model env st.model with
  | (none, mst, _) =>
    (ApiResponse.err ("Could not initialize AI model") 500, { st with model := mst }, false)
  | (some mname, mst, _) =>
    let st1 : AppState := { st with model := mst }
    match scanOfRequest req with
    | Except.error e => (ApiResponse.err e 500, st1, false)
    | Except.ok none => modelPath env st1 req mname
    | Except.ok (some a) =>
      if a = "" then modelPath env st1 req mname
      else
        let rcd : Record := ⟨req.question, a, env.now, true⟩
        (ApiResponse.answer a, { st1 with history := appendEvict st1.history rcd }, false)


/-! ## Helper lemmas about the normalizer -/

/-- Characters surviving stripChars were in the original list. -/
theorem mem_of_mem_stripChars {c : Char} {cs : List Char} (h : c ∈ stripChars cs) :
    c ∈ cs := by
  unfold stripChars at h
  exact (List.dropWhile_suffix _).subset ((List.rdropWhile_prefix _ _).subset h)

/-- Stripping surrounding whitespace twice equals stripping once. -/
theorem stripChars_idem (cs : List Char) : stripChars (stripChars cs) = stripChars cs := by
  unfold stripChars
  have h1 : List.dropWhile Char.isWhitespace
      (List.rdropWhile Char.isWhitespace (List.dropWhile Char.isWhitespace cs)) =
      List.rdropWhile Char.isWhitespace (List.dropWhile Char.isWhitespace cs) := by
    rw [List.dropWhile_eq_self_iff]
    intro hl
    obtain ⟨t, ht⟩ := List.rdropWhile_prefix Char.isWhitespace
      (List.dropWhile Char.isWhitespace cs)
    have hX0 : 0 < (List.dropWhile Char.isWhitespace cs).length := by
      rw [← ht, List.length_append]
      omega
    have hget : (List.rdropWhile Char.isWhitespace
        (List.dropWhile Char.isWhitespace cs)).get ⟨0, hl⟩ =
        (List.dropWhile Char.isWhitespace cs).get ⟨0, hX0⟩ := by
      have he := List.get_of_eq ht.symm ⟨0, hX0⟩
      rw [he]
      simp only [List.get_eq_getElem]
      exact (List.getElem_append_left hl).symm
    rw [hget]
    exact List.dropWhile_get_zero_not Char.isWhitespace cs hX0
  rw [h1, List.rdropWhile_idempotent]

/-- Quote removal does nothing on a quote-free character list. -/
theorem removeQuoteChars_eq_self {cs : List Char}
    (h : ∀ c ∈ cs, c ≠ dq ∧ c ≠ sq) : removeQuoteChars cs = cs := by
  unfold removeQuoteChars
  rw [List.filter_eq_self]
  intro a ha
  obtain ⟨h1, h2⟩ := h a ha
  simp [h1, h2]

/-- A list without backticks cannot start with the fence marker. -/
theorem startsFence_eq_false {cs : List Char} (h : bt ∉ cs) : startsFence cs = false := by
  unfold startsFence
  rw [beq_eq_false_iff_ne]
  intro heq
  have hm : bt ∈ cs.take 3 := by
    rw [heq]
    simp [fenceMarker]
  exact h (List.take_subset 3 cs hm)

/-- On quote-free and backtick-free input the normalizer only strips
surrounding whitespace. -/
theorem normalizeChars_eq_strip {cs : List Char}
    (h : ∀ c ∈ cs, c ≠ dq ∧ c ≠ sq ∧ c ≠ bt) :
    normalizeChars cs = stripChars cs := by
  have hq : removeQuoteChars (stripChars cs) = stripChars cs :=
    removeQuoteChars_eq_self (fun c hc =>
      ⟨(h c (mem_of_mem_stripChars hc)).1, (h c (mem_of_mem_stripChars hc)).2.1⟩)
  have hbt : bt ∉ stripChars cs := fun hc =>
    (h bt (mem_of_mem_stripChars hc)).2.2 rfl
  simp only [normalizeChars, hq, startsFence_eq_false hbt, Bool.false_and,
    if_neg (Bool.false_ne_true)]

/-! ## Claim C4 -/

/-- Claim C4, counterexample: the normalizer is not idempotent, because
removing a quote can expose surrounding whitespace that only a second pass
would strip.  On the four-character input double-quote, space, x,
double-quote, one pass gives the two-character string space-x, a second pass
gives x. -/
theorem claim4_counterexample :
    normalize (normalize ("\" x\"")) ≠ normalize ("\" x\"") := by decide

/-- Claim C4 as amended: the normalizer is idempotent on every input string
containing no double-quote, single-quote, or backtick character (the original
universal idempotence fails: quote removal can expose surrounding whitespace,
and fence stripping can expose a nested fence). -/
theorem claim4_idem_on_plain_strings (s : String)
    (h : ∀ c ∈ s.data, c ≠ dq ∧ c ≠ sq ∧ c ≠ bt) :
    normalize (normalize s) = normalize s := by
  unfold normalize
  have hdata : (String.mk (normalizeChars s.data)).data = normalizeChars s.data := rfl
  rw [hdata, normalizeChars_eq_strip h,
    normalizeChars_eq_strip (fun c hc => h c (mem_of_mem_stripChars hc)),
    stripChars_idem]

/-- Claim C4 witness: idempotence at the concrete quote-free input
consisting of two spaces, h, i, two spaces. -/
theorem claim4_idem_witness :
    normalize (normalize ("  hi  ")) = normalize ("  hi  ") :=
  claim4_idem_on_plain_strings ("  hi  ") (by decide)

/-! ## Claim C5 -/

/-- Claim C5: the normalizer trims surrounding whitespace, removes every
literal double-quote and single-quote character anywhere, and strips exactly
one triple-backtick fence marker from each end (re-trimming) when the result
both starts and ends with one, with no other transformation; it agrees with
the clause-by-clause transcription of the specification on every input, and
the two specification examples hold. -/
theorem claim5_normalizer_behavior :
    (∀ s : String, normalize s = normalizeSpec s) ∧
    normalize (" \"4\" ") = "4" ∧
    normalize ("```Paris```") = "Paris" :=
  ⟨fun _ => rfl, by decide, by decide⟩


/-! ## Claim C3: the model resolver loop -/

/-- The candidate loop returns exactly the first candidate accepted by the
hasattr test of line 106, for any candidate list. -/
theorem resolveLoop_fst (env : Env) (l : List String) :
    (resolveLoop env l).1 = l.find? (fun n => acceptedProbe (env.probe n)) := by
  induction l with
  | nil => rfl
  | cons n rest ih =>
    simp only [resolveLoop, List.find?]
    cases hp : acceptedProbe (env.probe n) with
    | true => simp [hp]
    | false => simp [hp, ih]

/-- The candidate loop fails exactly when every candidate fails the
acceptance test. -/
theorem resolveLoop_none (env : Env) (l : List String) :
    ((resolveLoop env l).1).isNone = l.all (fun n => !acceptedProbe (env.probe n)) := by
  induction l with
  | nil => rfl
  | cons n rest ih =>
    simp only [resolveLoop, List.all_cons]
    cases hp : acceptedProbe (env.probe n) with
    | true => simp [hp]
    | false => simp [hp, ih]

/-- Probe environment in which the first candidate answers the smoke test
with a truthy response whose text payload is the empty string, and every
other candidate answers with the non-empty payload ok. -/
def envEmptyText : Env :=
  { probe := fun n =>
      if n = "models/gemini-1.5-flash" then Except.ok ⟨true, some ("")⟩
      else Except.ok ⟨true, some ("ok")⟩,
    constructOk := fun _ => true,
    generate := fun _ _ => Except.ok ⟨true, some ("4")⟩,
    now := 0 }

/-- Acceptance test transcribed from the specification text of section 4.2:
a candidate is accepted on the first response that contains any non-empty
text payload; errors and empty or missing payloads are failures. -/
def acceptedProbeSpec (r : Except String GenResponse) : Bool :=
  match r with
  | Except.ok resp =>
    match resp.text with
    | some t => t != ""
    | none => false
  | Except.error _ => false

/-- Claim C3, counterexample: the resolver accepts a candidate whose probe
returns an empty text payload, because line 106 only checks truthiness and
the presence of a text attribute.  Under envEmptyText the code binds the
first candidate although its payload is empty, while the resolver described
by the claim would skip it and bind the second candidate. -/
theorem claim3_counterexample :
    (resolveLoop envEmptyText candidates).1 = some ("models/gemini-1.5-flash") ∧
    acceptedProbeSpec (envEmptyText.probe ("models/gemini-1.5-flash")) = false ∧
    candidates.find? (fun n => acceptedProbeSpec (envEmptyText.probe n)) =
      some ("gemini-1.5-flash") ∧
    some ("models/gemini-1.5-flash") ≠ some ("gemini-1.5-flash") :=
  ⟨rfl, rfl, rfl, by decide⟩

/-- Claim C3 as amended: the resolver returns a handle bound to the first
candidate whose smoke-test probe raises no error and returns a truthy
response carrying a text attribute (the emptiness of the payload is not
checked); a candidate that raises, or whose response is falsy or lacks a
text attribute, is skipped in favor of the next; it never binds a later
candidate when an earlier one passes this test, and reports no working model
exactly when every candidate fails it. -/
theorem claim3_resolver_first_accepted (env : Env) :
    (resolveLoop env candidates).1 =
      candidates.find? (fun n => acceptedProbe (env.probe n)) ∧
    ((resolveLoop env candidates).1).isNone =
      candidates.all (fun n => !acceptedProbe (env.probe n)) :=
  ⟨resolveLoop_fst env candidates, resolveLoop_none env candidates⟩

/-! ## Claim C8: process-wide caching of the resolution -/

/-- Claim C8: resolution happens at most once per process.  Whatever the
first call of get_model on the fresh process state returns (a bound handle
or a terminal failure), an immediately following call returns the very same
result and state while issuing zero probes; since the state is returned
unchanged, every further call repeats this behavior. -/
theorem claim8_resolution_cached (env : Env) (r : Option String)
    (s : ModelState) (k : Nat)
    (h : get_model env ⟨none, none⟩ = (r, s, k)) :
    get_model env s = (r, s, 0) := by
  rcases hres : resolveLoop env candidates with ⟨r0, k0⟩
  cases r0 with
  | none =>
    simp only [get_model, get_cached_model_name, hres] at h
    simp only [Prod.mk.injEq] at h
    obtain ⟨h1, h2, h3⟩ := h
    subst h1
    subst h2
    rfl
  | some nm =>
    cases hc : env.constructOk nm with
    | true =>
      simp only [get_model, get_cached_model_name, hres] at h
      rw [hc] at h
      simp only [if_true] at h
      simp only [Prod.mk.injEq] at h
      obtain ⟨h1, h2, h3⟩ := h
      subst h1
      subst h2
      rfl
    | false =>
      simp only [get_model, get_cached_model_name, hres] at h
      rw [hc] at h
      simp only [Bool.false_eq_true, if_false] at h
      simp only [Prod.mk.injEq] at h
      obtain ⟨h1, h2, h3⟩ := h
      subst h1
      subst h2
      simp [get_model, get_cached_model_name, hc]

/-- Probe environment whose every probe raises, standing for a process in
which no candidate model works. -/
def envFail : Env :=
  { probe := fun _ => Except.error ("quota exceeded"),
    constructOk := fun _ => true,
    generate := fun _ _ => Except.ok ⟨true, some ("Paris")⟩,
    now := 7 }

/-- Claim C8 witness: under envFail the first call caches the terminal
failure after probing all four candidates, and the second call returns the
cached failure with zero probes. -/
theorem claim8_resolution_cached_witness :
    get_model envFail ⟨some none, none⟩ = (none, ⟨some none, none⟩, 0) :=
  claim8_resolution_cached envFail none ⟨some none, none⟩ 4 rfl


/-! ## Orchestrator helper lemmas and fixtures -/

/-- Append-then-evict keeps the history within the 100-entry cap. -/
theorem appendEvict_length_le (h : List Record) (r : Record) (hle : h.length ≤ 100) :
    (appendEvict h r).length ≤ 100 := by
  unfold appendEvict
  by_cases hc : (h ++ [r]).length > 100
  · rw [if_pos hc]
    simp only [List.length_drop, List.length_append, List.length_cons, List.length_nil]
    omega
  · rw [if_neg hc]
    simp only [List.length_append, List.length_cons, List.length_nil] at hc ⊢
    omega

/-- When the generation tail produces an error body, it has not touched the
state. -/
theorem modelPath_err_state (env : Env) (st : AppState) (req : Request)
    (mname msg : String) (c : Nat)
    (h : (modelPath env st req mname).1 = ApiResponse.err msg c) :
    (modelPath env st req mname).2.1 = st := by
  rcases hg : env.generate mname (buildPrompt req.question) with e | resp
  · simp [modelPath, hg]
  · rcases ht : resp.text with _ | t
    · simp [modelPath, hg, ht]
    · exfalso
      simp [modelPath, hg, ht] at h

/-- The generation tail keeps the history within the cap. -/
theorem modelPath_hist_len (env : Env) (st : AppState) (req : Request)
    (mname : String) (hle : st.history.length ≤ 100) :
    ((modelPath env st req mname).2.1).history.length ≤ 100 := by
  rcases hg : env.generate mname (buildPrompt req.question) with e | resp
  · simpa [modelPath, hg] using hle
  · rcases ht : resp.text with _ | t
    · simpa [modelPath, hg, ht] using hle
    · simp only [modelPath, hg, ht]
      exact appendEvict_length_le _ _ hle

/-- Shared model name of the fixtures: the first hardcoded candidate. -/
def mflash : String := "models/gemini-1.5-flash"

/-- Healthy environment: every probe succeeds with a non-empty payload,
construction succeeds, and generation answers Paris. -/
def envOk : Env :=
  { probe := fun _ => Except.ok ⟨true, some ("ok")⟩,
    constructOk := fun _ => true,
    generate := fun _ _ => Except.ok ⟨true, some ("Paris")⟩,
    now := 7 }

/-- Fresh process state: nothing cached, empty history. -/
def st0 : AppState := ⟨⟨none, none⟩, []⟩

/-- Model cache state after a successful resolution under envOk. -/
def mstOk : ModelState := ⟨some (some mflash), some mflash⟩

/-- Process state with the model resolved and an empty history. -/
def stResolved : AppState := ⟨mstOk, []⟩

/-- CSV fixture of the specification example: header answer,other_column
and first row 42,some data. -/
def answersCsv : FileEntry :=
  ⟨"answers.csv", Except.ok ⟨["answer", "other_column"], [["42", "some data"]]⟩⟩

/-- Upload whose single-directory archive carries answersCsv. -/
def file42 : UploadedFile := ⟨"data.zip", Except.ok [[answersCsv]]⟩

/-- Request carrying file42. -/
def req42 : Request := ⟨"q1", some file42⟩

/-- Matching CSV with answer 1 met in the first walked directory. -/
def csvDirA : FileEntry := ⟨"a.csv", Except.ok ⟨["answer", "other_column"], [["1", "x"]]⟩⟩

/-- Matching CSV with answer 2 met in a later walked directory. -/
def csvDirB : FileEntry := ⟨"b.csv", Except.ok ⟨["answer"], [["2"]]⟩⟩

/-- CSV with an answer column and zero data rows. -/
def csvNoRows : FileEntry := ⟨"empty.csv", Except.ok ⟨["answer"], []⟩⟩

/-- Upload with matching CSV files in two successive walked directories. -/
def fileNested : UploadedFile := ⟨"nested.zip", Except.ok [[csvDirA], [csvDirB]]⟩

/-- Request carrying fileNested. -/
def reqNested : Request := ⟨"q2", some fileNested⟩

/-- Upload whose single directory holds a matching CSV followed by the
zero-row CSV, so the break skips the latter. -/
def fileSkip : UploadedFile := ⟨"skip.zip", Except.ok [[csvDirA, csvNoRows]]⟩

/-- Request carrying fileSkip. -/
def reqSkip : Request := ⟨"q3", some fileSkip⟩

/-- Upload named .zip whose open raises BadZipFile. -/
def fileBad : UploadedFile := ⟨"broken.zip", Except.error ("File is not a zip file")⟩

/-- Request carrying fileBad. -/
def reqBadZip : Request := ⟨"q4", some fileBad⟩

/-- Upload whose single directory holds only the zero-row CSV. -/
def fileNoRows : UploadedFile := ⟨"empty.zip", Except.ok [[csvNoRows]]⟩

/-- Request carrying fileNoRows. -/
def reqNoRows : Request := ⟨"q5", some fileNoRows⟩


/-! ## Claim C1: orchestrator precedence -/

/-- Claim C1, counterexample: under envFail model resolution fails, and the
request whose archive would yield the answer 42 terminates with the no-model
error body instead of the archive-derived answer — resolution is attempted
first and its failure is terminal even when the scanner would succeed. -/
theorem claim1_counterexample :
    get_answer envFail st0 req42 =
      (ApiResponse.err ("Could not initialize AI model") 500,
        ⟨⟨some none, none⟩, []⟩, false) ∧
    scanWalk [[answersCsv]] none = Except.ok (some ("42")) ∧
    ApiResponse.err ("Could not initialize AI model") 500 ≠ ApiResponse.answer ("42") :=
  ⟨rfl, rfl, by decide⟩

/-- Claim C1 as amended: model resolution is attempted unconditionally at
the start of each request, before the archive scan, and its failure is
terminal; when resolution succeeds and the scan of the attached archive
yields a truthy answer, the request terminates with that archive-derived
answer, the interaction record is appended with had_file true, and model
generation is never invoked for that request. -/
theorem claim1_archive_precedence (env : Env) (st : AppState) (req : Request)
    (f : UploadedFile) (dirs : List (List FileEntry)) (a mname : String)
    (mst : ModelState) (k : Nat)
    (hm : get_model env st.model = (some mname, mst, k))
    (hf : req.file = some f)
    (hn : f.filename ≠ "")
    (hz : strEndsWith f.filename (".zip") = true)
    (hzip : f.zip = Except.ok dirs)
    (hscan : scanWalk dirs none = Except.ok (some a))
    (ha : a ≠ "") :
    get_answer env st req =
      (ApiResponse.answer a,
        ⟨mst, appendEvict st.history ⟨req.question, a, env.now, true⟩⟩, false) := by
  have hsor : scanOfRequest req = Except.ok (some a) := by
    simp only [scanOfRequest, hf, hzip]
    rw [if_pos]
    · exact hscan
    · simp [bne_iff_ne, hn, hz]
  simp only [get_answer, hm, hsor]
  rw [if_neg ha]

/-- Claim C1 witness: under envOk the request carrying the archive of the
specification example gets the archive answer 42 with no generation call. -/
theorem claim1_archive_precedence_witness :
    get_answer envOk st0 req42 =
      (ApiResponse.answer ("42"),
        ⟨mstOk, appendEvict st0.history ⟨req42.question, "42", envOk.now, true⟩⟩,
        false) :=
  claim1_archive_precedence envOk st0 req42 file42 [[answersCsv]] ("42") mflash
    mstOk 1 rfl rfl (by decide) rfl rfl rfl (by decide)

/-! ## Claim C2: the walk does not stop at the first matching CSV -/

/-- Claim C2, evaluation at the failing input: the first walked directory
already yields the answer 1, but because the break of line 257 leaves only
the inner loop, the walk goes on and a matching CSV in a later directory
overwrites the result, so the scan of the nested archive returns 2 and the
whole request answers 2. -/
theorem claim2_walk_overwrites_earlier_match :
    scanDirFiles [csvDirA] none = Except.ok (some ("1")) ∧
    scanWalk [[csvDirA], [csvDirB]] none = Except.ok (some ("2")) ∧
    (get_answer envOk st0 reqNested).1 = ApiResponse.answer ("2") ∧
    (some ("2") : Option String) ≠ some ("1") :=
  ⟨rfl, rfl, rfl, by decide⟩

/-! ## Claim C6: a malformed ZIP upload is fatal -/

/-- Claim C6, counterexample: with a healthy model, the request whose
upload is named .zip but cannot be opened ends in a 500 error body carrying
the BadZipFile message, although the model path would have produced the
model-derived answer Paris — the malformed archive does not fall through to
generation. -/
theorem claim6_counterexample :
    (get_answer envOk st0 reqBadZip).1 = ApiResponse.err ("File is not a zip file") 500 ∧
    (modelPath envOk stResolved reqBadZip mflash).1 = ApiResponse.answer ("Paris") ∧
    ApiResponse.err ("File is not a zip file") 500 ≠ ApiResponse.answer ("Paris") :=
  ⟨rfl, rfl, by decide⟩

/-- Claim C6 as amended: an uploaded file whose name ends in .zip but which
cannot be opened as a ZIP archive is fatal to the request: the BadZipFile
exception is caught by the broad handler and returned as a 500 error body
with the exception message, the model path is never entered, and the history
is untouched.  (Only an attached file not named .zip bypasses the scan and
falls through to model generation.) -/
theorem claim6_badzip_fatal (env : Env) (st : AppState) (req : Request)
    (f : UploadedFile) (e mname : String) (mst : ModelState) (k : Nat)
    (hm : get_model env st.model = (some mname, mst, k))
    (hf : req.file = some f)
    (hn : f.filename ≠ "")
    (hz : strEndsWith f.filename (".zip") = true)
    (hbad : f.zip = Except.error e) :
    get_answer env st req = (ApiResponse.err e 500, { st with model := mst }, false) := by
  have hsor : scanOfRequest req = Except.error e := by
    simp only [scanOfRequest, hf, hbad]
    rw [if_pos]
    simp [bne_iff_ne, hn, hz]
  simp only [get_answer, hm, hsor]

/-- Claim C6 witness: the concrete malformed upload under envOk yields the
500 BadZipFile body. -/
theorem claim6_badzip_fatal_witness :
    get_answer envOk st0 reqBadZip =
      (ApiResponse.err ("File is not a zip file") 500, ⟨mstOk, []⟩, false) :=
  claim6_badzip_fatal envOk st0 reqBadZip fileBad ("File is not a zip file") mflash
    mstOk 1 rfl rfl (by decide) rfl rfl

/-! ## Claim C10: a reached zero-row answer CSV aborts the request -/

/-- Claim C10, counterexample: the archive of reqSkip contains the zero-row
answer CSV, but an earlier CSV in the same directory matches first and the
break skips the rest of that directory, so the request returns the 200
answer 1 instead of the 500 error the claim asserts for every archive
containing such a CSV. -/
theorem claim10_counterexample :
    (get_answer envOk st0 reqSkip).1 = ApiResponse.answer ("1") ∧
    csvNoRows.csv = Except.ok ⟨["answer"], []⟩ ∧
    firstAnswerCell ⟨["answer"], []⟩ = Except.error ilocMsg :=
  ⟨rfl, rfl, rfl⟩

/-- Claim C10 as amended: when the scan actually reads a CSV whose header
has an answer column but which has zero data rows (it is not skipped by an
earlier match in its own directory), the iloc access raises, the broad
handler turns the exception into a 500 error body, generation is never
invoked and the history is untouched, rather than treating the scan as
absent and falling through to the model. -/
theorem claim10_scan_error_is_500 (env : Env) (st : AppState) (req : Request)
    (f : UploadedFile) (dirs : List (List FileEntry)) (e mname : String)
    (mst : ModelState) (k : Nat)
    (hm : get_model env st.model = (some mname, mst, k))
    (hf : req.file = some f)
    (hn : f.filename ≠ "")
    (hz : strEndsWith f.filename (".zip") = true)
    (hzip : f.zip = Except.ok dirs)
    (hscan : scanWalk dirs none = Except.error e) :
    get_answer env st req = (ApiResponse.err e 500, { st with model := mst }, false) := by
  have hsor : scanOfRequest req = Except.error e := by
    simp only [scanOfRequest, hf, hzip]
    rw [if_pos]
    · exact hscan
    · simp [bne_iff_ne, hn, hz]
  simp only [get_answer, hm, hsor]

/-- Claim C10 witness: the archive holding only the zero-row answer CSV
makes the request fail with the iloc IndexError message as a 500 body. -/
theorem claim10_scan_error_is_500_witness :
    get_answer envOk st0 reqNoRows = (ApiResponse.err ilocMsg 500, ⟨mstOk, []⟩, false) :=
  claim10_scan_error_is_500 envOk st0 reqNoRows fileNoRows [[csvNoRows]] ilocMsg
    mflash mstOk 1 rfl rfl (by decide) rfl rfl rfl


/-! ## Claim C9: error responses leave the history untouched -/

/-- Claim C9: the interaction-record append happens only after an answer is
finalized.  Whenever the handler returns an error body — no model, scan
exception, transport failure, or unexpected response shape — the history in
the resulting state is exactly the history it started from. -/
theorem claim9_error_leaves_history (env : Env) (st : AppState) (req : Request)
    (msg : String) (c : Nat)
    (h : (get_answer env st req).1 = ApiResponse.err msg c) :
    ((get_answer env st req).2.1).history = st.history := by
  rcases hm : get_model env st.model with ⟨mq, mst, k⟩
  rcases mq with _ | mname
  · simp [get_answer, hm]
  · rcases hs : scanOfRequest req with e | aq
    · simp [get_answer, hm, hs]
    · rcases aq with _ | a
      · simp only [get_answer, hm, hs] at h ⊢
        rw [modelPath_err_state env _ req mname msg c h]
      · by_cases ha : a = ""
        · subst ha
          simp only [get_answer, hm, hs, eq_self_iff_true, if_true] at h ⊢
          rw [modelPath_err_state env _ req mname msg c h]
        · exfalso
          simp only [get_answer, hm, hs, if_neg ha] at h
          exact ApiResponse.noConfusion h

/-- Claim C9 witness: under envFail the request ends in the no-model error
and the history is unchanged. -/
theorem claim9_error_leaves_history_witness :
    ((get_answer envFail st0 req42).2.1).history = st0.history :=
  claim9_error_leaves_history envFail st0 req42 ("Could not initialize AI model") 500 rfl

/-! ## Claim C7: the bounded history invariant -/

/-- Claim C7: the interaction history never exceeds 100 entries and
preserves insertion order.  Starting from a history within the cap,
append-then-evict stays within the cap; when the append makes the length
exceed 100, exactly the oldest record (index 0) is evicted, the remaining
records keep their relative order, and the resulting length is exactly 100;
and a whole request through the handler preserves the cap. -/
theorem claim7_history_cap (h : List Record) (r : Record) (hle : h.length ≤ 100) :
    (appendEvict h r).length ≤ 100 ∧
    ((h ++ [r]).length > 100 →
      appendEvict h r = h.drop 1 ++ [r] ∧ (appendEvict h r).length = 100) ∧
    ∀ (env : Env) (st : AppState) (req : Request), st.history.length ≤ 100 →
      ((get_answer env st req).2.1).history.length ≤ 100 := by
  refine ⟨appendEvict_length_le h r hle, fun hc => ?_, ?_⟩
  · have hlen : h.length = 100 := by
      simp only [List.length_append, List.length_cons, List.length_nil] at hc
      omega
    constructor
    · unfold appendEvict
      rw [if_pos hc, List.drop_append_of_le_length (by omega)]
    · unfold appendEvict
      rw [if_pos hc]
      simp only [List.length_drop, List.length_append, List.length_cons, List.length_nil]
      omega
  · intro env st req hst
    rcases hm : get_model env st.model with ⟨mq, mst, k⟩
    rcases mq with _ | mname
    · simpa [get_answer, hm] using hst
    · rcases hs : scanOfRequest req with e | aq
      · simpa [get_answer, hm, hs] using hst
      · rcases aq with _ | a
        · simp only [get_answer, hm, hs]
          exact modelPath_hist_len env _ req mname hst
        · by_cases ha : a = ""
          · subst ha
            simp only [get_answer, hm, hs, eq_self_iff_true, if_true]
            exact modelPath_hist_len env _ req mname hst
          · simp only [get_answer, hm, hs, if_neg ha]
            exact appendEvict_length_le _ _ hst

/-- History record used by the cap witness. -/
def r0 : Record := ⟨"qq", "aa", 0, false⟩

/-- Claim C7 witness: at a full 100-entry history, the append evicts exactly
the oldest record and the length stays at the cap. -/
theorem claim7_history_cap_witness :
    (appendEvict (List.replicate 100 r0) r0).length ≤ 100 ∧
    appendEvict (List.replicate 100 r0) r0 = (List.replicate 100 r0).drop 1 ++ [r0] :=
  ⟨(claim7_history_cap (List.replicate 100 r0) r0 (by simp)).1,
    ((claim7_history_cap (List.replicate 100 r0) r0 (by simp)).2.1 (by simp)).1⟩

end Main
